import Mathlib

/-!
Verification of the prismatic-joint sequential-impulse constraint solver
(src/src/dynamics/b2_prismatic_joint.cpp).

The engine uses a deterministic fixed-point scalar type `fixed` whose exact
representation is left open by the design notes; the claims under study are
algebraic and structural (update symmetry, clamping, branch selection,
accumulator bookkeeping), so the scalar is embedded as the exact field ℚ.
Rotations enter only through the constructor b2Rot(angle), which evaluates
sine and cosine of the angle; those two functions are passed as explicit
parameters `sinF cosF`, keeping every definition executable and every
theorem valid for all rotation tables.
-/

/-- Modelled from the spec: fixed-size 2D vector of the deterministic math
component (component 1, assumed available). -/
@[ext]
structure Vec2 where
  x : ℚ
  y : ℚ
deriving DecidableEq, Repr

instance : Add Vec2 := ⟨fun a b => ⟨a.x + b.x, a.y + b.y⟩⟩

instance : Sub Vec2 := ⟨fun a b => ⟨a.x - b.x, a.y - b.y⟩⟩

instance : Neg Vec2 := ⟨fun a => ⟨-a.x, -a.y⟩⟩

instance : SMul ℚ Vec2 := ⟨fun s v => ⟨s * v.x, s * v.y⟩⟩

@[simp] theorem Vec2.add_x (a b : Vec2) : (a + b).x = a.x + b.x := rfl

@[simp] theorem Vec2.add_y (a b : Vec2) : (a + b).y = a.y + b.y := rfl

@[simp] theorem Vec2.sub_x (a b : Vec2) : (a - b).x = a.x - b.x := rfl

@[simp] theorem Vec2.sub_y (a b : Vec2) : (a - b).y = a.y - b.y := rfl

@[simp] theorem Vec2.neg_x (a : Vec2) : (-a).x = -a.x := rfl

@[simp] theorem Vec2.neg_y (a : Vec2) : (-a).y = -a.y := rfl

@[simp] theorem Vec2.smul_x (s : ℚ) (a : Vec2) : (s • a).x = s * a.x := rfl

@[simp] theorem Vec2.smul_y (s : ℚ) (a : Vec2) : (s • a).y = s * a.y := rfl

/-- Modelled from the spec: dot product of the math component. -/
def b2Dot (a b : Vec2) : ℚ :=
  a.x * b.x + a.y * b.y

/-- Modelled from the spec: 2D cross product (scalar result) of the math
component. -/
def b2Cross (a b : Vec2) : ℚ :=
  a.x * b.y - a.y * b.x

/-- Modelled from the spec: cross product of a scalar with a vector
(the b2Cross(s, v) overload of the math component). -/
def b2CrossSV (s : ℚ) (v : Vec2) : Vec2 :=
  ⟨-s * v.y, s * v.x⟩

/-- Modelled from the spec: clamp helper of the math component,
b2Clamp(a, low, high) = b2Max(low, b2Min(a, high)). -/
def b2Clamp (a lo hi : ℚ) : ℚ :=
  max lo (min a hi)

/-- Modelled from the spec: rotation representation of the math component,
stored as the sine and cosine of the angle. -/
structure Rot where
  s : ℚ
  c : ℚ
deriving DecidableEq, Repr

/-- Modelled from the spec: the b2Rot(angle) constructor, evaluating the
engine sine and cosine tables (passed as `sinF`, `cosF`) at the angle. -/
def b2RotOf (sinF cosF : ℚ → ℚ) (a : ℚ) : Rot :=
  ⟨sinF a, cosF a⟩

/-- Modelled from the spec: rotating a vector, b2Mul(q, v). -/
def b2MulRot (q : Rot) (v : Vec2) : Vec2 :=
  ⟨q.c * v.x - q.s * v.y, q.s * v.x + q.c * v.y⟩

/-- Modelled from the spec: 2×2 matrix of the math component, stored by
columns ex, ey. -/
structure Mat22 where
  ex : Vec2
  ey : Vec2
deriving DecidableEq, Repr

/-- Modelled from the spec: the closed-form 2×2 solve of the math component;
the determinant is inverted only when it is nonzero. -/
def Mat22.Solve (M : Mat22) (b : Vec2) : Vec2 :=
  let a11 := M.ex.x
  let a12 := M.ey.x
  let a21 := M.ex.y
  let a22 := M.ey.y
  let det0 := a11 * a22 - a12 * a21
  let det := if det0 ≠ 0 then 1 / det0 else det0
  ⟨det * (a22 * b.x - a12 * b.y), det * (a11 * b.y - a21 * b.x)⟩

/-- Modelled from the spec: fixed-size 3D vector of the math component. -/
@[ext]
structure Vec3 where
  x : ℚ
  y : ℚ
  z : ℚ
deriving DecidableEq, Repr

/-- Modelled from the spec: 3D dot product. -/
def b2Dot3 (a b : Vec3) : ℚ :=
  a.x * b.x + a.y * b.y + a.z * b.z

/-- Modelled from the spec: 3D cross product. -/
def b2Cross3 (a b : Vec3) : Vec3 :=
  ⟨a.y * b.z - a.z * b.y, a.z * b.x - a.x * b.z, a.x * b.y - a.y * b.x⟩

/-- Modelled from the spec: 3×3 matrix of the math component, stored by
columns ex, ey, ez. -/
structure Mat33 where
  ex : Vec3
  ey : Vec3
  ez : Vec3
deriving DecidableEq, Repr

/-- Modelled from the spec: the closed-form 3×3 solve (Cramer form) of the
math component; the determinant is inverted only when it is nonzero. -/
def Mat33.Solve33 (M : Mat33) (b : Vec3) : Vec3 :=
  let det0 := b2Dot3 M.ex (b2Cross3 M.ey M.ez)
  let det := if det0 ≠ 0 then 1 / det0 else det0
  ⟨det * b2Dot3 b (b2Cross3 M.ey M.ez),
   det * b2Dot3 M.ex (b2Cross3 b M.ez),
   det * b2Dot3 M.ex (b2Cross3 M.ey b)⟩

/-- Per-body velocity entry of the island solver shared array
(b2Velocity: linear v, angular w). -/
structure Velocity where
  v : Vec2
  w : ℚ
deriving DecidableEq, Repr

/-- Per-body position entry of the island solver shared array
(b2Position: center c, angle a). -/
structure Position where
  c : Vec2
  a : ℚ
deriving DecidableEq, Repr

/-- Step metadata of b2SolverData (b2TimeStep): duration, its inverse, the
ratio of current to previous duration, and the warm-starting flag. -/
structure TimeStep where
  dt : ℚ
  inv_dt : ℚ
  dtRatio : ℚ
  warmStarting : Bool
deriving DecidableEq, Repr

/-- Modelled from the spec: the body collaborator fields the joint reads
(transform rotation and origin, sweep center and local center, velocities,
inverse mass and inverse rotational inertia) and the awake flag the wake
operation sets. -/
structure Body where
  m_xf_q : Rot
  m_xf_p : Vec2
  m_sweep_c : Vec2
  m_sweep_localCenter : Vec2
  m_linearVelocity : Vec2
  m_angularVelocity : ℚ
  m_invMass : ℚ
  m_invI : ℚ
  awake : Bool
deriving DecidableEq, Repr

/-- Modelled from the spec: the wake operation on the body collaborator
(SetAwake(true)), an explicit operation with no return value. -/
def SetAwakeTrue (b : Body) : Body :=
  { b with awake := true }

/-- Modelled from the spec: world-space point of a local-frame point
(b2Body::GetWorldPoint, b2Mul(m_xf, p)). -/
def GetWorldPoint (b : Body) (p : Vec2) : Vec2 :=
  b.m_xf_p + b2MulRot b.m_xf_q p

/-- Modelled from the spec: world-space direction of a local-frame vector
(b2Body::GetWorldVector, b2Mul(m_xf.q, v)). -/
def GetWorldVector (b : Body) (v : Vec2) : Vec2 :=
  b2MulRot b.m_xf_q v

/-- The mutable state of b2PrismaticJoint: configuration, accumulated
impulses, and the per-step cached solver terms. -/
structure PrismaticJoint where
  m_localAnchorA : Vec2
  m_localAnchorB : Vec2
  m_localXAxisA : Vec2
  m_localYAxisA : Vec2
  m_referenceAngle : ℚ
  m_impulse : Vec2
  m_motorImpulse : ℚ
  m_lowerImpulse : ℚ
  m_upperImpulse : ℚ
  m_lowerTranslation : ℚ
  m_upperTranslation : ℚ
  m_maxMotorForce : ℚ
  m_motorSpeed : ℚ
  m_enableLimit : Bool
  m_enableMotor : Bool
  m_localCenterA : Vec2
  m_localCenterB : Vec2
  m_invMassA : ℚ
  m_invMassB : ℚ
  m_invIA : ℚ
  m_invIB : ℚ
  m_axis : Vec2
  m_perp : Vec2
  m_s1 : ℚ
  m_s2 : ℚ
  m_a1 : ℚ
  m_a2 : ℚ
  m_axialMass : ℚ
  m_K : Mat22
  m_translation : ℚ
deriving DecidableEq, Repr

/-- Result of a velocity-stage call: the updated joint state and the two
velocity entries written back to the shared array. -/
structure VelOut where
  joint : PrismaticJoint
  vA : Velocity
  vB : Velocity
deriving DecidableEq, Repr

/-- The motor sub-solve of SolveVelocityConstraints (source lines 236-254):
clamps the total accumulated motor impulse to [-dt*maxMotorForce,
dt*maxMotorForce] and applies only the increment. -/
def SolveMotor (j : PrismaticJoint) (step : TimeStep) (vA vB : Velocity) : VelOut :=
  if j.m_enableMotor then
    let Cdot := b2Dot j.m_axis (vB.v - vA.v) + j.m_a2 * vB.w - j.m_a1 * vA.w
    let impulse := j.m_axialMass * (j.m_motorSpeed - Cdot)
    let oldImpulse := j.m_motorImpulse
    let maxImpulse := step.dt * j.m_maxMotorForce
    let newImpulse := b2Clamp (j.m_motorImpulse + impulse) (-maxImpulse) maxImpulse
    let inc := newImpulse - oldImpulse
    let P := inc • j.m_axis
    let LA := inc * j.m_a1
    let LB := inc * j.m_a2
    { joint := { j with m_motorImpulse := newImpulse },
      vA := ⟨vA.v - j.m_invMassA • P, vA.w - j.m_invIA * LA⟩,
      vB := ⟨vB.v + j.m_invMassB • P, vB.w + j.m_invIB * LB⟩ }
  else
    { joint := j, vA := vA, vB := vB }

/-- The lower-limit sub-solve of SolveVelocityConstraints (source lines
256-275; the source guards the lower and upper blocks by one test of
m_enableLimit, which neither block changes, so the guard is replicated
here on each block). The accumulated impulse is clamped non-negative. -/
def SolveLower (j : PrismaticJoint) (step : TimeStep) (vA vB : Velocity) : VelOut :=
  if j.m_enableLimit then
    let C := j.m_translation - j.m_lowerTranslation
    let Cdot := b2Dot j.m_axis (vB.v - vA.v) + j.m_a2 * vB.w - j.m_a1 * vA.w
    let impulse := -j.m_axialMass * (Cdot + max C 0 * step.inv_dt)
    let oldImpulse := j.m_lowerImpulse
    let newImpulse := max (j.m_lowerImpulse + impulse) 0
    let inc := newImpulse - oldImpulse
    let P := inc • j.m_axis
    let LA := inc * j.m_a1
    let LB := inc * j.m_a2
    { joint := { j with m_lowerImpulse := newImpulse },
      vA := ⟨vA.v - j.m_invMassA • P, vA.w - j.m_invIA * LA⟩,
      vB := ⟨vB.v + j.m_invMassB • P, vB.w + j.m_invIB * LB⟩ }
  else
    { joint := j, vA := vA, vB := vB }

/-- The upper-limit sub-solve of SolveVelocityConstraints (source lines
277-296): signs are flipped relative to the lower limit so the accumulated
impulse stays positive when the limit is active. -/
def SolveUpper (j : PrismaticJoint) (step : TimeStep) (vA vB : Velocity) : VelOut :=
  if j.m_enableLimit then
    let C := j.m_upperTranslation - j.m_translation
    let Cdot := b2Dot j.m_axis (vA.v - vB.v) + j.m_a1 * vA.w - j.m_a2 * vB.w
    let impulse := -j.m_axialMass * (Cdot + max C 0 * step.inv_dt)
    let oldImpulse := j.m_upperImpulse
    let newImpulse := max (j.m_upperImpulse + impulse) 0
    let inc := newImpulse - oldImpulse
    let P := inc • j.m_axis
    let LA := inc * j.m_a1
    let LB := inc * j.m_a2
    { joint := { j with m_upperImpulse := newImpulse },
      vA := ⟨vA.v + j.m_invMassA • P, vA.w + j.m_invIA * LA⟩,
      vB := ⟨vB.v - j.m_invMassB • P, vB.w - j.m_invIB * LB⟩ }
  else
    { joint := j, vA := vA, vB := vB }

/-- The bilateral block sub-solve of SolveVelocityConstraints (source lines
299-317): solves the cached 2×2 system for the impulse increment df and
applies it. -/
def SolveBlock (j : PrismaticJoint) (vA vB : Velocity) : VelOut :=
  let Cdot : Vec2 := ⟨b2Dot j.m_perp (vB.v - vA.v) + j.m_s2 * vB.w - j.m_s1 * vA.w, vB.w - vA.w⟩
  let df := j.m_K.Solve (-Cdot)
  let P := df.x • j.m_perp
  let LA := df.x * j.m_s1 + df.y
  let LB := df.x * j.m_s2 + df.y
  { joint := { j with m_impulse := j.m_impulse + df },
    vA := ⟨vA.v - j.m_invMassA • P, vA.w - j.m_invIA * LA⟩,
    vB := ⟨vB.v + j.m_invMassB • P, vB.w + j.m_invIB * LB⟩ }

/-- b2PrismaticJoint::SolveVelocityConstraints (source lines 226-323): the
four sub-solves in their fixed Gauss-Seidel order — motor, lower limit,
upper limit, bilateral block. -/
def SolveVelocityConstraints (j : PrismaticJoint) (step : TimeStep) (vA vB : Velocity) : VelOut :=
  let o1 := SolveMotor j step vA vB
  let o2 := SolveLower o1.joint step o1.vA o1.vB
  let o3 := SolveUpper o2.joint step o2.vA o2.vB
  SolveBlock o3.joint o3.vA o3.vB

/-- n successive calls of SolveVelocityConstraints on the same step data
(the island solver iterates the velocity stage). -/
def SolveVelocityN (j : PrismaticJoint) (step : TimeStep) (vA vB : Velocity) : ℕ → VelOut
  | 0 => { joint := j, vA := vA, vB := vB }
  | n + 1 =>
    let o := SolveVelocityN j step vA vB n
    SolveVelocityConstraints o.joint step o.vA o.vB

/-- b2PrismaticJoint::InitVelocityConstraints (source lines 114-224):
refreshes the cached geometry and effective masses from the current poses,
zeroes the accumulators of disabled features, then either warm-starts
(rescales all accumulators by dtRatio and applies their combined impulse)
or zeroes every accumulator. -/
def InitVelocityConstraints (sinF cosF : ℚ → ℚ) (bA bB : Body) (j : PrismaticJoint)
    (step : TimeStep) (pA pB : Position) (vA vB : Velocity) : VelOut :=
  let localCenterA := bA.m_sweep_localCenter
  let localCenterB := bB.m_sweep_localCenter
  let mA := bA.m_invMass
  let mB := bB.m_invMass
  let iA := bA.m_invI
  let iB := bB.m_invI
  let qA := b2RotOf sinF cosF pA.a
  let qB := b2RotOf sinF cosF pB.a
  let rA := b2MulRot qA (j.m_localAnchorA - localCenterA)
  let rB := b2MulRot qB (j.m_localAnchorB - localCenterB)
  let d := (pB.c - pA.c) + rB - rA
  let axis := b2MulRot qA j.m_localXAxisA
  let a1 := b2Cross (d + rA) axis
  let a2 := b2Cross rB axis
  let axialMass0 := mA + mB + iA * a1 * a1 + iB * a2 * a2
  let axialMass := if 0 < axialMass0 then 1 / axialMass0 else axialMass0
  let perp := b2MulRot qA j.m_localYAxisA
  let s1 := b2Cross (d + rA) perp
  let s2 := b2Cross rB perp
  let k11 := mA + mB + iA * s1 * s1 + iB * s2 * s2
  let k12 := iA * s1 + iB * s2
  let k22 := if iA + iB = 0 then 1 else iA + iB
  let K : Mat22 := ⟨⟨k11, k12⟩, ⟨k12, k22⟩⟩
  let j1 := { j with
    m_localCenterA := localCenterA, m_localCenterB := localCenterB,
    m_invMassA := mA, m_invMassB := mB, m_invIA := iA, m_invIB := iB,
    m_axis := axis, m_a1 := a1, m_a2 := a2, m_axialMass := axialMass,
    m_perp := perp, m_s1 := s1, m_s2 := s2, m_K := K,
    m_translation := if j.m_enableLimit then b2Dot axis d else j.m_translation,
    m_lowerImpulse := if j.m_enableLimit then j.m_lowerImpulse else 0,
    m_upperImpulse := if j.m_enableLimit then j.m_upperImpulse else 0,
    m_motorImpulse := if j.m_enableMotor then j.m_motorImpulse else 0 }
  if step.warmStarting then
    let impulse := step.dtRatio • j1.m_impulse
    let motorImpulse := step.dtRatio * j1.m_motorImpulse
    let lowerImpulse := step.dtRatio * j1.m_lowerImpulse
    let upperImpulse := step.dtRatio * j1.m_upperImpulse
    let axialImpulse := motorImpulse + lowerImpulse - upperImpulse
    let P := impulse.x • perp + axialImpulse • axis
    let LA := impulse.x * s1 + impulse.y + axialImpulse * a1
    let LB := impulse.x * s2 + impulse.y + axialImpulse * a2
    { joint := { j1 with
        m_impulse := impulse,
        m_motorImpulse := motorImpulse,
        m_lowerImpulse := lowerImpulse,
        m_upperImpulse := upperImpulse },
      vA := ⟨vA.v - mA • P, vA.w - iA * LA⟩,
      vB := ⟨vB.v + mB • P, vB.w + iB * LB⟩ }
  else
    { joint := { j1 with
        m_impulse := ⟨0, 0⟩,
        m_motorImpulse := 0,
        m_lowerImpulse := 0,
        m_upperImpulse := 0 },
      vA := vA, vB := vB }

/-- Intermediate quantities of one SolvePositionConstraints call: fresh
geometry, positional errors, limit activity, and the pseudo-impulse. -/
structure PosCalc where
  d : Vec2
  axis : Vec2
  perp : Vec2
  a1 : ℚ
  a2 : ℚ
  s1 : ℚ
  s2 : ℚ
  C1x : ℚ
  C1y : ℚ
  translation : ℚ
  active : Bool
  C2 : ℚ
  linearError : ℚ
  angularError : ℚ
  k22 : ℚ
  impulse : Vec3
deriving DecidableEq, Repr

/-- The limit activity test of SolvePositionConstraints (source lines
365-388): given the fresh translation and the perpendicular error
magnitude, yields (active, C2, linearError) — a range narrower than twice
the linear slop is treated as an equality constraint, otherwise the limit
is active only at or beyond a bound, with the violation folded into the
linear error. -/
def limitTriple (lSlop : ℚ) (j : PrismaticJoint) (translation linearError0 : ℚ) :
    Bool × ℚ × ℚ :=
  if j.m_enableLimit then
    if |j.m_upperTranslation - j.m_lowerTranslation| < 2 * lSlop then
      (true, translation, max linearError0 |translation|)
    else if translation ≤ j.m_lowerTranslation then
      (true, min (translation - j.m_lowerTranslation) 0,
       max linearError0 (j.m_lowerTranslation - translation))
    else if j.m_upperTranslation ≤ translation then
      (true, max (translation - j.m_upperTranslation) 0,
       max linearError0 (translation - j.m_upperTranslation))
    else
      (false, 0, linearError0)
  else
    (false, 0, linearError0)

/-- The computation of b2PrismaticJoint::SolvePositionConstraints up to the
pseudo-impulse (source lines 332-434), collected into a record: fresh
Jacobians from the current poses, the bilateral errors C1, the limit
activity test with its error folding, and the 3×3 or 2×2 solve. The two
branches of the source compute k11, k12, k22 identically, so they are
hoisted above the branch. -/
def posCalc (sinF cosF : ℚ → ℚ) (lSlop : ℚ) (j : PrismaticJoint)
    (pA pB : Position) : PosCalc :=
  let qA := b2RotOf sinF cosF pA.a
  let qB := b2RotOf sinF cosF pB.a
  let mA := j.m_invMassA
  let mB := j.m_invMassB
  let iA := j.m_invIA
  let iB := j.m_invIB
  let rA := b2MulRot qA (j.m_localAnchorA - j.m_localCenterA)
  let rB := b2MulRot qB (j.m_localAnchorB - j.m_localCenterB)
  let d := pB.c + rB - pA.c - rA
  let axis := b2MulRot qA j.m_localXAxisA
  let a1 := b2Cross (d + rA) axis
  let a2 := b2Cross rB axis
  let perp := b2MulRot qA j.m_localYAxisA
  let s1 := b2Cross (d + rA) perp
  let s2 := b2Cross rB perp
  let C1x := b2Dot perp d
  let C1y := pB.a - pA.a - j.m_referenceAngle
  let linearError0 := |C1x|
  let angularError := |C1y|
  let translation := b2Dot axis d
  let lims := limitTriple lSlop j translation linearError0
  let active := lims.1
  let C2 := lims.2.1
  let linearError := lims.2.2
  let k11 := mA + mB + iA * s1 * s1 + iB * s2 * s2
  let k12 := iA * s1 + iB * s2
  let k22 := if iA + iB = 0 then 1 else iA + iB
  let impulse : Vec3 :=
    if active then
      let k13 := iA * s1 * a1 + iB * s2 * a2
      let k23 := iA * a1 + iB * a2
      let k33 := mA + mB + iA * a1 * a1 + iB * a2 * a2
      let K : Mat33 := ⟨⟨k11, k12, k13⟩, ⟨k12, k22, k23⟩, ⟨k13, k23, k33⟩⟩
      K.Solve33 ⟨-C1x, -C1y, -C2⟩
    else
      let K : Mat22 := ⟨⟨k11, k12⟩, ⟨k12, k22⟩⟩
      let impulse1 := K.Solve ⟨-C1x, -C1y⟩
      ⟨impulse1.x, impulse1.y, 0⟩
  { d := d, axis := axis, perp := perp, a1 := a1, a2 := a2, s1 := s1, s2 := s2,
    C1x := C1x, C1y := C1y, translation := translation, active := active,
    C2 := C2, linearError := linearError, angularError := angularError,
    k22 := k22, impulse := impulse }

/-- Result of one position-stage call: the convergence flag and the two
position entries written back to the shared array. -/
structure PosOut where
  ok : Bool
  pA : Position
  pB : Position
deriving DecidableEq, Repr

/-- b2PrismaticJoint::SolvePositionConstraints (source lines 332-451):
applies the pseudo-impulse of posCalc to the poses and reports whether the
entry errors are within the slop tolerances. -/
def SolvePositionConstraints (sinF cosF : ℚ → ℚ) (lSlop aSlop : ℚ)
    (j : PrismaticJoint) (pA pB : Position) : PosOut :=
  let pc := posCalc sinF cosF lSlop j pA pB
  let P := pc.impulse.x • pc.perp + pc.impulse.z • pc.axis
  let LA := pc.impulse.x * pc.s1 + pc.impulse.y + pc.impulse.z * pc.a1
  let LB := pc.impulse.x * pc.s2 + pc.impulse.y + pc.impulse.z * pc.a2
  { ok := decide (pc.linearError ≤ lSlop ∧ pc.angularError ≤ aSlop),
    pA := ⟨pA.c - j.m_invMassA • P, pA.a - j.m_invIA * LA⟩,
    pB := ⟨pB.c + j.m_invMassB • P, pB.a + j.m_invIB * LB⟩ }

/-- b2PrismaticJoint::GetReactionForce (source lines 463-466). -/
def GetReactionForce (j : PrismaticJoint) (inv_dt : ℚ) : Vec2 :=
  inv_dt • (j.m_impulse.x • j.m_perp +
    (j.m_motorImpulse + j.m_lowerImpulse + j.m_upperImpulse) • j.m_axis)

/-- b2PrismaticJoint::GetReactionTorque (source lines 468-471). -/
def GetReactionTorque (j : PrismaticJoint) (inv_dt : ℚ) : ℚ :=
  inv_dt * j.m_impulse.y

/-- b2PrismaticJoint::GetJointTranslation (source lines 473-482): anchor
separation projected on the world axis, all from live body poses. -/
def GetJointTranslation (j : PrismaticJoint) (bA bB : Body) : ℚ :=
  let pA := GetWorldPoint bA j.m_localAnchorA
  let pB := GetWorldPoint bB j.m_localAnchorB
  let d := pB - pA
  let axis := GetWorldVector bA j.m_localXAxisA
  b2Dot d axis

/-- b2PrismaticJoint::GetJointSpeed (source lines 484-503): relative axial
velocity recomputed entirely from live body transform, sweep center and
velocity fields. -/
def GetJointSpeed (j : PrismaticJoint) (bA bB : Body) : ℚ :=
  let rA := b2MulRot bA.m_xf_q (j.m_localAnchorA - bA.m_sweep_localCenter)
  let rB := b2MulRot bB.m_xf_q (j.m_localAnchorB - bB.m_sweep_localCenter)
  let p1 := bA.m_sweep_c + rA
  let p2 := bB.m_sweep_c + rB
  let d := p2 - p1
  let axis := b2MulRot bA.m_xf_q j.m_localXAxisA
  b2Dot d (b2CrossSV bA.m_angularVelocity axis) +
    b2Dot axis (bB.m_linearVelocity + b2CrossSV bB.m_angularVelocity rB -
      bA.m_linearVelocity - b2CrossSV bA.m_angularVelocity rA)

/-- The joint together with the two bodies it connects: the state a control
surface call can read or write. -/
structure JointBodies where
  joint : PrismaticJoint
  bodyA : Body
  bodyB : Body
deriving DecidableEq, Repr

/-- GetReactionForce as a call on the full state: the method is const and
performs no write, so the state component passes through unchanged. -/
def GetReactionForceCall (s : JointBodies) (inv_dt : ℚ) : Vec2 × JointBodies :=
  (GetReactionForce s.joint inv_dt, s)

/-- GetReactionTorque as a call on the full state (const, no writes). -/
def GetReactionTorqueCall (s : JointBodies) (inv_dt : ℚ) : ℚ × JointBodies :=
  (GetReactionTorque s.joint inv_dt, s)

/-- GetJointTranslation as a call on the full state (const, no writes). -/
def GetJointTranslationCall (s : JointBodies) : ℚ × JointBodies :=
  (GetJointTranslation s.joint s.bodyA s.bodyB, s)

/-- GetJointSpeed as a call on the full state (const, no writes). -/
def GetJointSpeedCall (s : JointBodies) : ℚ × JointBodies :=
  (GetJointSpeed s.joint s.bodyA s.bodyB, s)

/-- b2PrismaticJoint::EnableLimit (source lines 510-520). -/
def EnableLimit (s : JointBodies) (flag : Bool) : JointBodies :=
  if flag ≠ s.joint.m_enableLimit then
    { joint := { s.joint with
        m_enableLimit := flag,
        m_lowerImpulse := 0,
        m_upperImpulse := 0 },
      bodyA := SetAwakeTrue s.bodyA,
      bodyB := SetAwakeTrue s.bodyB }
  else
    s

/-- b2PrismaticJoint::SetLimits (source lines 532-544); the precondition
lower ≤ upper is an assertion (programming error when violated), not a
runtime branch, so it does not appear in the state transformer. -/
def SetLimits (s : JointBodies) (lower upper : ℚ) : JointBodies :=
  if lower ≠ s.joint.m_lowerTranslation ∨ upper ≠ s.joint.m_upperTranslation then
    { joint := { s.joint with
        m_lowerTranslation := lower,
        m_upperTranslation := upper,
        m_lowerImpulse := 0,
        m_upperImpulse := 0 },
      bodyA := SetAwakeTrue s.bodyA,
      bodyB := SetAwakeTrue s.bodyB }
  else
    s

/-- b2PrismaticJoint::EnableMotor (source lines 551-559). -/
def EnableMotor (s : JointBodies) (flag : Bool) : JointBodies :=
  if flag ≠ s.joint.m_enableMotor then
    { joint := { s.joint with m_enableMotor := flag },
      bodyA := SetAwakeTrue s.bodyA,
      bodyB := SetAwakeTrue s.bodyB }
  else
    s

/-- b2PrismaticJoint::SetMotorSpeed (source lines 561-569). -/
def SetMotorSpeed (s : JointBodies) (speed : ℚ) : JointBodies :=
  if speed ≠ s.joint.m_motorSpeed then
    { joint := { s.joint with m_motorSpeed := speed },
      bodyA := SetAwakeTrue s.bodyA,
      bodyB := SetAwakeTrue s.bodyB }
  else
    s

/-- b2PrismaticJoint::SetMaxMotorForce (source lines 571-579). -/
def SetMaxMotorForce (s : JointBodies) (force : ℚ) : JointBodies :=
  if force ≠ s.joint.m_maxMotorForce then
    { joint := { s.joint with m_maxMotorForce := force },
      bodyA := SetAwakeTrue s.bodyA,
      bodyB := SetAwakeTrue s.bodyB }
  else
    s

/-- A concrete body for evaluation: unit mass and inertia at the origin. -/
def testBody : Body :=
  { m_xf_q := ⟨0, 1⟩, m_xf_p := ⟨0, 0⟩, m_sweep_c := ⟨0, 0⟩,
    m_sweep_localCenter := ⟨0, 0⟩, m_linearVelocity := ⟨0, 0⟩,
    m_angularVelocity := 0, m_invMass := 1, m_invI := 1, awake := true }

/-- A concrete joint state for evaluation: axis (1,0), motor and limit
enabled, a nonzero accumulated motor impulse. -/
def testJoint : PrismaticJoint :=
  { m_localAnchorA := ⟨0, 0⟩, m_localAnchorB := ⟨0, 0⟩,
    m_localXAxisA := ⟨1, 0⟩, m_localYAxisA := ⟨0, 1⟩,
    m_referenceAngle := 0, m_impulse := ⟨0, 0⟩,
    m_motorImpulse := 5, m_lowerImpulse := 0, m_upperImpulse := 0,
    m_lowerTranslation := -1, m_upperTranslation := 1,
    m_maxMotorForce := 2, m_motorSpeed := 1,
    m_enableLimit := true, m_enableMotor := true,
    m_localCenterA := ⟨0, 0⟩, m_localCenterB := ⟨0, 0⟩,
    m_invMassA := 1, m_invMassB := 1, m_invIA := 1, m_invIB := 1,
    m_axis := ⟨1, 0⟩, m_perp := ⟨0, 1⟩,
    m_s1 := 0, m_s2 := 0, m_a1 := 0, m_a2 := 0,
    m_axialMass := 1/2, m_K := ⟨⟨2, 0⟩, ⟨0, 2⟩⟩, m_translation := 0 }

/-- A concrete step: dt = 1/60, warm starting on. -/
def testStep : TimeStep :=
  { dt := 1/60, inv_dt := 60, dtRatio := 1, warmStarting := true }

/-- Velocity zero entry for concrete evaluations. -/
def v0 : Velocity := ⟨⟨0, 0⟩, 0⟩

/-- The symmetric Newton-third-law shape of an axial impulse application:
some scalar increment, pushed through the axis and the lever arms a1, a2,
moves body A by the mass-weighted opposite of body B. -/
def AxialSymUpdate (j : PrismaticJoint) (vA vB vA' vB' : Velocity) : Prop :=
  ∃ δ : ℚ,
    vA'.v = vA.v - j.m_invMassA • (δ • j.m_axis) ∧
    vA'.w = vA.w - j.m_invIA * (δ * j.m_a1) ∧
    vB'.v = vB.v + j.m_invMassB • (δ • j.m_axis) ∧
    vB'.w = vB.w + j.m_invIB * (δ * j.m_a2)

/-- The symmetric shape of the bilateral block impulse application: a
2-vector increment pushed through the perpendicular axis and the lever
arms s1, s2. -/
def BlockSymUpdate (j : PrismaticJoint) (vA vB vA' vB' : Velocity) : Prop :=
  ∃ df : Vec2,
    vA'.v = vA.v - j.m_invMassA • (df.x • j.m_perp) ∧
    vA'.w = vA.w - j.m_invIA * (df.x * j.m_s1 + df.y) ∧
    vB'.v = vB.v + j.m_invMassB • (df.x • j.m_perp) ∧
    vB'.w = vB.w + j.m_invIB * (df.x * j.m_s2 + df.y)

theorem axialSym_refl (j : PrismaticJoint) (vA vB : Velocity) :
    AxialSymUpdate j vA vB vA vB := by
  refine ⟨0, ?_, by ring, ?_, by ring⟩ <;> (ext <;> simp)

theorem axialSym_direct (j : PrismaticJoint) (vA vB : Velocity) (inc : ℚ) :
    AxialSymUpdate j vA vB
      ⟨vA.v - j.m_invMassA • (inc • j.m_axis), vA.w - j.m_invIA * (inc * j.m_a1)⟩
      ⟨vB.v + j.m_invMassB • (inc • j.m_axis), vB.w + j.m_invIB * (inc * j.m_a2)⟩ :=
  ⟨inc, rfl, rfl, rfl, rfl⟩

theorem axialSym_flipped (j : PrismaticJoint) (vA vB : Velocity) (inc : ℚ) :
    AxialSymUpdate j vA vB
      ⟨vA.v + j.m_invMassA • (inc • j.m_axis), vA.w + j.m_invIA * (inc * j.m_a1)⟩
      ⟨vB.v - j.m_invMassB • (inc • j.m_axis), vB.w - j.m_invIB * (inc * j.m_a2)⟩ := by
  refine ⟨-inc, ?_, by ring, ?_, by ring⟩ <;> (ext <;> simp <;> ring)

/-- C1: in SolveVelocityConstraints, each of the four impulse increments
(motor, lower limit, upper limit, bilateral block) updates body A by the
exact mass/inertia-weighted opposite of body B: A moves by -invMass*P and
-invI*L while B moves by +invMass*P and +invI*L, with P and the angular
terms built from one scalar (or 2-vector) increment through the axis or
perpendicular and the lever arms, for all body states and step data. -/
theorem prismatic_solveVelocity_impulse_symmetry
    (j : PrismaticJoint) (step : TimeStep) (vA vB : Velocity) :
    AxialSymUpdate j vA vB (SolveMotor j step vA vB).vA (SolveMotor j step vA vB).vB ∧
    AxialSymUpdate j vA vB (SolveLower j step vA vB).vA (SolveLower j step vA vB).vB ∧
    AxialSymUpdate j vA vB (SolveUpper j step vA vB).vA (SolveUpper j step vA vB).vB ∧
    BlockSymUpdate j vA vB (SolveBlock j vA vB).vA (SolveBlock j vA vB).vB := by
  refine ⟨?_, ?_, ?_, ?_⟩
  · unfold SolveMotor
    split
    · exact axialSym_direct j vA vB _
    · exact axialSym_refl j vA vB
  · unfold SolveLower
    split
    · exact axialSym_direct j vA vB _
    · exact axialSym_refl j vA vB
  · unfold SolveUpper
    split
    · exact axialSym_flipped j vA vB _
    · exact axialSym_refl j vA vB
  · exact ⟨_, rfl, rfl, rfl, rfl⟩

theorem SolveMotor_motorImpulse_bound (j : PrismaticJoint) (step : TimeStep)
    (vA vB : Velocity) (hm : j.m_enableMotor = true)
    (hmax : 0 ≤ step.dt * j.m_maxMotorForce) :
    |(SolveMotor j step vA vB).joint.m_motorImpulse| ≤ step.dt * j.m_maxMotorForce := by
  unfold SolveMotor
  rw [if_pos hm]
  rw [abs_le]
  constructor
  · exact le_max_left _ _
  · exact max_le (by linarith) (min_le_right _ _)

theorem SolveLower_motorImpulse (j : PrismaticJoint) (step : TimeStep) (vA vB : Velocity) :
    (SolveLower j step vA vB).joint.m_motorImpulse = j.m_motorImpulse := by
  unfold SolveLower; split <;> rfl

theorem SolveUpper_motorImpulse (j : PrismaticJoint) (step : TimeStep) (vA vB : Velocity) :
    (SolveUpper j step vA vB).joint.m_motorImpulse = j.m_motorImpulse := by
  unfold SolveUpper; split <;> rfl

theorem SolveBlock_motorImpulse (j : PrismaticJoint) (vA vB : Velocity) :
    (SolveBlock j vA vB).joint.m_motorImpulse = j.m_motorImpulse := rfl

theorem SolveVelocityConstraints_motorImpulse (j : PrismaticJoint) (step : TimeStep)
    (vA vB : Velocity) :
    (SolveVelocityConstraints j step vA vB).joint.m_motorImpulse =
      (SolveMotor j step vA vB).joint.m_motorImpulse := by
  unfold SolveVelocityConstraints
  rw [SolveBlock_motorImpulse, SolveUpper_motorImpulse, SolveLower_motorImpulse]

theorem SolveMotor_params (j : PrismaticJoint) (step : TimeStep) (vA vB : Velocity) :
    (SolveMotor j step vA vB).joint.m_enableMotor = j.m_enableMotor ∧
    (SolveMotor j step vA vB).joint.m_maxMotorForce = j.m_maxMotorForce ∧
    (SolveMotor j step vA vB).joint.m_enableLimit = j.m_enableLimit ∧
    (SolveMotor j step vA vB).joint.m_lowerImpulse = j.m_lowerImpulse ∧
    (SolveMotor j step vA vB).joint.m_upperImpulse = j.m_upperImpulse := by
  unfold SolveMotor; split <;> exact ⟨rfl, rfl, rfl, rfl, rfl⟩

theorem SolveLower_params (j : PrismaticJoint) (step : TimeStep) (vA vB : Velocity) :
    (SolveLower j step vA vB).joint.m_enableMotor = j.m_enableMotor ∧
    (SolveLower j step vA vB).joint.m_maxMotorForce = j.m_maxMotorForce ∧
    (SolveLower j step vA vB).joint.m_enableLimit = j.m_enableLimit ∧
    (SolveLower j step vA vB).joint.m_upperImpulse = j.m_upperImpulse := by
  unfold SolveLower; split <;> exact ⟨rfl, rfl, rfl, rfl⟩

theorem SolveUpper_params (j : PrismaticJoint) (step : TimeStep) (vA vB : Velocity) :
    (SolveUpper j step vA vB).joint.m_enableMotor = j.m_enableMotor ∧
    (SolveUpper j step vA vB).joint.m_maxMotorForce = j.m_maxMotorForce ∧
    (SolveUpper j step vA vB).joint.m_enableLimit = j.m_enableLimit ∧
    (SolveUpper j step vA vB).joint.m_lowerImpulse = j.m_lowerImpulse := by
  unfold SolveUpper; split <;> exact ⟨rfl, rfl, rfl, rfl⟩

theorem SolveBlock_params (j : PrismaticJoint) (vA vB : Velocity) :
    (SolveBlock j vA vB).joint.m_enableMotor = j.m_enableMotor ∧
    (SolveBlock j vA vB).joint.m_maxMotorForce = j.m_maxMotorForce ∧
    (SolveBlock j vA vB).joint.m_enableLimit = j.m_enableLimit :=
  ⟨rfl, rfl, rfl⟩

theorem SolveVelocityConstraints_params (j : PrismaticJoint) (step : TimeStep)
    (vA vB : Velocity) :
    (SolveVelocityConstraints j step vA vB).joint.m_enableMotor = j.m_enableMotor ∧
    (SolveVelocityConstraints j step vA vB).joint.m_maxMotorForce = j.m_maxMotorForce ∧
    (SolveVelocityConstraints j step vA vB).joint.m_enableLimit = j.m_enableLimit := by
  unfold SolveVelocityConstraints
  refine ⟨?_, ?_, ?_⟩
  · rw [(SolveBlock_params _ _ _).1, (SolveUpper_params _ _ _ _).1,
      (SolveLower_params _ _ _ _).1, (SolveMotor_params _ _ _ _).1]
  · rw [(SolveBlock_params _ _ _).2.1, (SolveUpper_params _ _ _ _).2.1,
      (SolveLower_params _ _ _ _).2.1, (SolveMotor_params _ _ _ _).2.1]
  · rw [(SolveBlock_params _ _ _).2.2, (SolveUpper_params _ _ _ _).2.2.1,
      (SolveLower_params _ _ _ _).2.2.1, (SolveMotor_params _ _ _ _).2.2.1]

theorem SolveVelocityN_params (j : PrismaticJoint) (step : TimeStep)
    (vA vB : Velocity) (n : ℕ) :
    (SolveVelocityN j step vA vB n).joint.m_enableMotor = j.m_enableMotor ∧
    (SolveVelocityN j step vA vB n).joint.m_maxMotorForce = j.m_maxMotorForce ∧
    (SolveVelocityN j step vA vB n).joint.m_enableLimit = j.m_enableLimit := by
  induction n with
  | zero => exact ⟨rfl, rfl, rfl⟩
  | succ k ih =>
    have h := SolveVelocityConstraints_params (SolveVelocityN j step vA vB k).joint step
      (SolveVelocityN j step vA vB k).vA (SolveVelocityN j step vA vB k).vB
    exact ⟨h.1.trans ih.1, h.2.1.trans ih.2.1, h.2.2.trans ih.2.2⟩

/-- C2: with the motor enabled, after any positive number of
SolveVelocityConstraints calls the magnitude of the accumulated motor
impulse is at most maxMotorForce * dt: each iteration clamps the total
accumulated motor impulse to [-dt*maxMotorForce, dt*maxMotorForce] and the
later sub-solves leave it unchanged. -/
theorem prismatic_motor_impulse_clamped (j : PrismaticJoint) (step : TimeStep)
    (vA vB : Velocity) (n : ℕ) (hm : j.m_enableMotor = true)
    (hmax : 0 ≤ step.dt * j.m_maxMotorForce) (hn : 1 ≤ n) :
    |(SolveVelocityN j step vA vB n).joint.m_motorImpulse| ≤
      step.dt * j.m_maxMotorForce := by
  obtain ⟨k, rfl⟩ : ∃ k, n = k + 1 := ⟨n - 1, by omega⟩
  show |(SolveVelocityConstraints (SolveVelocityN j step vA vB k).joint step
    (SolveVelocityN j step vA vB k).vA (SolveVelocityN j step vA vB k).vB).joint.m_motorImpulse| ≤ _
  rw [SolveVelocityConstraints_motorImpulse]
  have hp := SolveVelocityN_params j step vA vB k
  have := SolveMotor_motorImpulse_bound (SolveVelocityN j step vA vB k).joint step
    (SolveVelocityN j step vA vB k).vA (SolveVelocityN j step vA vB k).vB
    (hp.1.trans hm) (by rw [hp.2.1]; exact hmax)
  rwa [hp.2.1] at this

/-- Witness for C2 at a concrete joint, step and one iteration. -/
theorem prismatic_motor_impulse_clamped_witness :
    testJoint.m_enableMotor = true ∧
    0 ≤ testStep.dt * testJoint.m_maxMotorForce ∧
    |(SolveVelocityN testJoint testStep v0 v0 1).joint.m_motorImpulse| ≤
      testStep.dt * testJoint.m_maxMotorForce :=
  ⟨rfl, by norm_num [testStep, testJoint],
    prismatic_motor_impulse_clamped testJoint testStep v0 v0 1 rfl
      (by norm_num [testStep, testJoint]) (by norm_num)⟩

theorem SolveLower_lowerImpulse_nonneg (j : PrismaticJoint) (step : TimeStep)
    (vA vB : Velocity) (h : 0 ≤ j.m_lowerImpulse) :
    0 ≤ (SolveLower j step vA vB).joint.m_lowerImpulse := by
  unfold SolveLower
  split
  · exact le_max_right _ _
  · exact h

theorem SolveUpper_upperImpulse_nonneg (j : PrismaticJoint) (step : TimeStep)
    (vA vB : Velocity) (h : 0 ≤ j.m_upperImpulse) :
    0 ≤ (SolveUpper j step vA vB).joint.m_upperImpulse := by
  unfold SolveUpper
  split
  · exact le_max_right _ _
  · exact h

theorem SolveBlock_limitImpulses (j : PrismaticJoint) (vA vB : Velocity) :
    (SolveBlock j vA vB).joint.m_lowerImpulse = j.m_lowerImpulse ∧
    (SolveBlock j vA vB).joint.m_upperImpulse = j.m_upperImpulse :=
  ⟨rfl, rfl⟩

theorem SolveVelocityConstraints_limit_nonneg (j : PrismaticJoint) (step : TimeStep)
    (vA vB : Velocity) (hl : 0 ≤ j.m_lowerImpulse) (hu : 0 ≤ j.m_upperImpulse) :
    0 ≤ (SolveVelocityConstraints j step vA vB).joint.m_lowerImpulse ∧
    0 ≤ (SolveVelocityConstraints j step vA vB).joint.m_upperImpulse := by
  unfold SolveVelocityConstraints
  constructor
  · rw [(SolveBlock_limitImpulses _ _ _).1, (SolveUpper_params _ _ _ _).2.2.2]
    exact SolveLower_lowerImpulse_nonneg _ _ _ _
      (by rw [(SolveMotor_params _ _ _ _).2.2.2.1]; exact hl)
  · rw [(SolveBlock_limitImpulses _ _ _).2]
    exact SolveUpper_upperImpulse_nonneg _ _ _ _
      (by rw [(SolveLower_params _ _ _ _).2.2.2, (SolveMotor_params _ _ _ _).2.2.2.2]
          exact hu)

/-- C3: when the lower and upper accumulated limit impulses are
non-negative on entry, they stay non-negative after any number of
SolveVelocityConstraints iterations — each limit sub-solve clamps its new
accumulated impulse with max(·, 0) before applying the difference. -/
theorem prismatic_limit_impulses_nonneg (j : PrismaticJoint) (step : TimeStep)
    (vA vB : Velocity) (n : ℕ) (hl : 0 ≤ j.m_lowerImpulse)
    (hu : 0 ≤ j.m_upperImpulse) :
    0 ≤ (SolveVelocityN j step vA vB n).joint.m_lowerImpulse ∧
    0 ≤ (SolveVelocityN j step vA vB n).joint.m_upperImpulse := by
  induction n with
  | zero => exact ⟨hl, hu⟩
  | succ k ih =>
    exact SolveVelocityConstraints_limit_nonneg _ _ _ _ ih.1 ih.2

/-- Witness for C3 at a concrete joint, step and three iterations. -/
theorem prismatic_limit_impulses_nonneg_witness :
    0 ≤ testJoint.m_lowerImpulse ∧ 0 ≤ testJoint.m_upperImpulse ∧
    (0 ≤ (SolveVelocityN testJoint testStep v0 v0 3).joint.m_lowerImpulse ∧
     0 ≤ (SolveVelocityN testJoint testStep v0 v0 3).joint.m_upperImpulse) :=
  ⟨le_refl 0, le_refl 0,
    prismatic_limit_impulses_nonneg testJoint testStep v0 v0 3 (le_refl 0) (le_refl 0)⟩

/-- C4 counterexample: EnableMotor(false) on a joint whose motor is enabled
and whose accumulated motor impulse is 5 toggles the flag but leaves the
motor impulse at 5, not 0 — the claim says an EnableMotor toggle resets the
motor impulse accumulator to zero. -/
theorem prismatic_enableMotor_no_reset_counterexample :
    false ≠ testJoint.m_enableMotor ∧
    (EnableMotor ⟨testJoint, testBody, testBody⟩ false).joint.m_motorImpulse = 5 ∧
    (5 : ℚ) ≠ 0 :=
  ⟨by decide, rfl, by norm_num⟩

/-- C4 (amended): each mutator is a no-op (state returned unchanged, no
body woken) when the new value equals the current one; otherwise it wakes
both connected bodies and applies the change. An EnableLimit toggle and a
SetLimits change reset the lower/upper limit impulse accumulators to zero;
an EnableMotor toggle changes only the flag and does not reset the motor
impulse accumulator (that accumulator is zeroed at the next
InitVelocityConstraints while the motor is disabled). -/
theorem prismatic_mutators_behavior (s : JointBodies) (flag : Bool)
    (lower upper speed force : ℚ) :
    (flag = s.joint.m_enableLimit → EnableLimit s flag = s) ∧
    (flag ≠ s.joint.m_enableLimit → EnableLimit s flag =
      ⟨{ s.joint with m_enableLimit := flag, m_lowerImpulse := 0, m_upperImpulse := 0 },
       SetAwakeTrue s.bodyA, SetAwakeTrue s.bodyB⟩) ∧
    (lower = s.joint.m_lowerTranslation ∧ upper = s.joint.m_upperTranslation →
      SetLimits s lower upper = s) ∧
    (lower ≠ s.joint.m_lowerTranslation ∨ upper ≠ s.joint.m_upperTranslation →
      SetLimits s lower upper =
        ⟨{ s.joint with
             m_lowerTranslation := lower,
             m_upperTranslation := upper,
             m_lowerImpulse := 0,
             m_upperImpulse := 0 },
         SetAwakeTrue s.bodyA, SetAwakeTrue s.bodyB⟩) ∧
    (flag = s.joint.m_enableMotor → EnableMotor s flag = s) ∧
    (flag ≠ s.joint.m_enableMotor → EnableMotor s flag =
      ⟨{ s.joint with m_enableMotor := flag },
       SetAwakeTrue s.bodyA, SetAwakeTrue s.bodyB⟩ ∧
      (EnableMotor s flag).joint.m_motorImpulse = s.joint.m_motorImpulse) ∧
    (speed = s.joint.m_motorSpeed → SetMotorSpeed s speed = s) ∧
    (speed ≠ s.joint.m_motorSpeed → SetMotorSpeed s speed =
      ⟨{ s.joint with m_motorSpeed := speed },
       SetAwakeTrue s.bodyA, SetAwakeTrue s.bodyB⟩) ∧
    (force = s.joint.m_maxMotorForce → SetMaxMotorForce s force = s) ∧
    (force ≠ s.joint.m_maxMotorForce → SetMaxMotorForce s force =
      ⟨{ s.joint with m_maxMotorForce := force },
       SetAwakeTrue s.bodyA, SetAwakeTrue s.bodyB⟩) := by
  refine ⟨fun h => ?_, fun h => ?_, fun h => ?_, fun h => ?_, fun h => ?_, fun h => ?_,
    fun h => ?_, fun h => ?_, fun h => ?_, fun h => ?_⟩
  · rw [EnableLimit, if_neg (by simp [h])]
  · rw [EnableLimit, if_pos h]
  · rw [SetLimits, if_neg (by simp [h.1, h.2])]
  · rw [SetLimits, if_pos h]
  · rw [EnableMotor, if_neg (by simp [h])]
  · refine ⟨by rw [EnableMotor, if_pos h], ?_⟩
    rw [EnableMotor, if_pos h]
  · rw [SetMotorSpeed, if_neg (by simp [h])]
  · rw [SetMotorSpeed, if_pos h]
  · rw [SetMaxMotorForce, if_neg (by simp [h])]
  · rw [SetMaxMotorForce, if_pos h]

/-- C9: the queries carry the joint-and-bodies state through unchanged (the
methods are const and perform no writes), and GetJointSpeed is invariant
under arbitrary changes to every cached solver term of the joint (axis,
perpendicular, lever arms, effective masses, block matrix, cached
translation, impulse accumulators, copied mass data), so it is computed
from the live body fields alone. -/
theorem prismatic_queries_pure (s : JointBodies) (inv_dt : ℚ) (ax pp : Vec2)
    (u1 u2 t1 t2 am tr : ℚ) (KK : Mat22) (mA2 mB2 iA2 iB2 : ℚ) (lcA lcB : Vec2)
    (im : Vec2) (mi li ui : ℚ) :
    (GetReactionForceCall s inv_dt).2 = s ∧
    (GetReactionTorqueCall s inv_dt).2 = s ∧
    (GetJointTranslationCall s).2 = s ∧
    (GetJointSpeedCall s).2 = s ∧
    GetJointSpeed
      { s.joint with
        m_axis := ax, m_perp := pp, m_a1 := u1, m_a2 := u2, m_s1 := t1, m_s2 := t2,
        m_axialMass := am, m_translation := tr, m_K := KK,
        m_invMassA := mA2, m_invMassB := mB2, m_invIA := iA2, m_invIB := iB2,
        m_localCenterA := lcA, m_localCenterB := lcB,
        m_impulse := im, m_motorImpulse := mi, m_lowerImpulse := li,
        m_upperImpulse := ui }
      s.bodyA s.bodyB = GetJointSpeed s.joint s.bodyA s.bodyB :=
  ⟨rfl, rfl, rfl, rfl, rfl⟩

/-- C5: accumulator side effects of InitVelocityConstraints — a disabled
limit zeroes the lower/upper impulses, a disabled motor zeroes the motor
impulse; with warm-starting all four accumulators are rescaled by dtRatio
and their combined impulse is applied to both velocities through the fresh
geometry; without warm-starting every accumulator is zeroed and the
velocities pass through unchanged. -/
theorem prismatic_init_side_effects (sinF cosF : ℚ → ℚ) (bA bB : Body)
    (j : PrismaticJoint) (step : TimeStep) (pA pB : Position) (vA vB : Velocity) :
    (j.m_enableLimit = false →
      (InitVelocityConstraints sinF cosF bA bB j step pA pB vA vB).joint.m_lowerImpulse = 0 ∧
      (InitVelocityConstraints sinF cosF bA bB j step pA pB vA vB).joint.m_upperImpulse = 0) ∧
    (j.m_enableMotor = false →
      (InitVelocityConstraints sinF cosF bA bB j step pA pB vA vB).joint.m_motorImpulse = 0) ∧
    (step.warmStarting = true →
      (InitVelocityConstraints sinF cosF bA bB j step pA pB vA vB).joint.m_impulse =
        step.dtRatio • j.m_impulse ∧
      (InitVelocityConstraints sinF cosF bA bB j step pA pB vA vB).joint.m_motorImpulse =
        step.dtRatio * (if j.m_enableMotor then j.m_motorImpulse else 0) ∧
      (InitVelocityConstraints sinF cosF bA bB j step pA pB vA vB).joint.m_lowerImpulse =
        step.dtRatio * (if j.m_enableLimit then j.m_lowerImpulse else 0) ∧
      (InitVelocityConstraints sinF cosF bA bB j step pA pB vA vB).joint.m_upperImpulse =
        step.dtRatio * (if j.m_enableLimit then j.m_upperImpulse else 0) ∧
      (InitVelocityConstraints sinF cosF bA bB j step pA pB vA vB).vA.v =
        vA.v - bA.m_invMass •
          ((InitVelocityConstraints sinF cosF bA bB j step pA pB vA vB).joint.m_impulse.x •
              (InitVelocityConstraints sinF cosF bA bB j step pA pB vA vB).joint.m_perp +
            ((InitVelocityConstraints sinF cosF bA bB j step pA pB vA vB).joint.m_motorImpulse +
              (InitVelocityConstraints sinF cosF bA bB j step pA pB vA vB).joint.m_lowerImpulse -
              (InitVelocityConstraints sinF cosF bA bB j step pA pB vA vB).joint.m_upperImpulse) •
              (InitVelocityConstraints sinF cosF bA bB j step pA pB vA vB).joint.m_axis) ∧
      (InitVelocityConstraints sinF cosF bA bB j step pA pB vA vB).vA.w =
        vA.w - bA.m_invI *
          ((InitVelocityConstraints sinF cosF bA bB j step pA pB vA vB).joint.m_impulse.x *
              (InitVelocityConstraints sinF cosF bA bB j step pA pB vA vB).joint.m_s1 +
            (InitVelocityConstraints sinF cosF bA bB j step pA pB vA vB).joint.m_impulse.y +
            ((InitVelocityConstraints sinF cosF bA bB j step pA pB vA vB).joint.m_motorImpulse +
              (InitVelocityConstraints sinF cosF bA bB j step pA pB vA vB).joint.m_lowerImpulse -
              (InitVelocityConstraints sinF cosF bA bB j step pA pB vA vB).joint.m_upperImpulse) *
              (InitVelocityConstraints sinF cosF bA bB j step pA pB vA vB).joint.m_a1) ∧
      (InitVelocityConstraints sinF cosF bA bB j step pA pB vA vB).vB.v =
        vB.v + bB.m_invMass •
          ((InitVelocityConstraints sinF cosF bA bB j step pA pB vA vB).joint.m_impulse.x •
              (InitVelocityConstraints sinF cosF bA bB j step pA pB vA vB).joint.m_perp +
            ((InitVelocityConstraints sinF cosF bA bB j step pA pB vA vB).joint.m_motorImpulse +
              (InitVelocityConstraints sinF cosF bA bB j step pA pB vA vB).joint.m_lowerImpulse -
              (InitVelocityConstraints sinF cosF bA bB j step pA pB vA vB).joint.m_upperImpulse) •
              (InitVelocityConstraints sinF cosF bA bB j step pA pB vA vB).joint.m_axis) ∧
      (InitVelocityConstraints sinF cosF bA bB j step pA pB vA vB).vB.w =
        vB.w + bB.m_invI *
          ((InitVelocityConstraints sinF cosF bA bB j step pA pB vA vB).joint.m_impulse.x *
              (InitVelocityConstraints sinF cosF bA bB j step pA pB vA vB).joint.m_s2 +
            (InitVelocityConstraints sinF cosF bA bB j step pA pB vA vB).joint.m_impulse.y +
            ((InitVelocityConstraints sinF cosF bA bB j step pA pB vA vB).joint.m_motorImpulse +
              (InitVelocityConstraints sinF cosF bA bB j step pA pB vA vB).joint.m_lowerImpulse -
              (InitVelocityConstraints sinF cosF bA bB j step pA pB vA vB).joint.m_upperImpulse) *
              (InitVelocityConstraints sinF cosF bA bB j step pA pB vA vB).joint.m_a2)) ∧
    (step.warmStarting = false →
      (InitVelocityConstraints sinF cosF bA bB j step pA pB vA vB).joint.m_impulse = ⟨0, 0⟩ ∧
      (InitVelocityConstraints sinF cosF bA bB j step pA pB vA vB).joint.m_motorImpulse = 0 ∧
      (InitVelocityConstraints sinF cosF bA bB j step pA pB vA vB).joint.m_lowerImpulse = 0 ∧
      (InitVelocityConstraints sinF cosF bA bB j step pA pB vA vB).joint.m_upperImpulse = 0 ∧
      (InitVelocityConstraints sinF cosF bA bB j step pA pB vA vB).vA = vA ∧
      (InitVelocityConstraints sinF cosF bA bB j step pA pB vA vB).vB = vB) := by
  cases hw : step.warmStarting with
  | false =>
    refine ⟨fun h => ⟨?_, ?_⟩, fun h => ?_, fun h => Bool.noConfusion h,
      fun _ => ⟨?_, ?_, ?_, ?_, ?_, ?_⟩⟩
    · simp [InitVelocityConstraints, hw, h]
    · simp [InitVelocityConstraints, hw, h]
    · simp [InitVelocityConstraints, hw, h]
    · simp [InitVelocityConstraints, hw]
    · simp [InitVelocityConstraints, hw]
    · simp [InitVelocityConstraints, hw]
    · simp [InitVelocityConstraints, hw]
    · simp [InitVelocityConstraints, hw]
    · simp [InitVelocityConstraints, hw]
  | true =>
    refine ⟨fun h => ⟨?_, ?_⟩, fun h => ?_,
      fun _ => ⟨?_, ?_, ?_, ?_, ?_, ?_, ?_, ?_⟩, fun h => Bool.noConfusion h⟩
    · simp [InitVelocityConstraints, hw, h]
    · simp [InitVelocityConstraints, hw, h]
    · simp [InitVelocityConstraints, hw, h]
    · simp [InitVelocityConstraints, hw]
    · simp [InitVelocityConstraints, hw]
    · simp [InitVelocityConstraints, hw]
    · simp [InitVelocityConstraints, hw]
    · simp [InitVelocityConstraints, hw]
    · simp [InitVelocityConstraints, hw]
    · simp [InitVelocityConstraints, hw]
    · simp [InitVelocityConstraints, hw]

theorem axial_sum_not_pos_eq_zero (mA mB iA iB a1 a2 : ℚ) (h1 : 0 ≤ mA) (h2 : 0 ≤ mB)
    (h3 : 0 ≤ iA) (h4 : 0 ≤ iB)
    (h5 : ¬0 < mA + mB + iA * a1 * a1 + iB * a2 * a2) :
    (if 0 < mA + mB + iA * a1 * a1 + iB * a2 * a2 then
      (mA + mB + iA * a1 * a1 + iB * a2 * a2)⁻¹
    else mA + mB + iA * a1 * a1 + iB * a2 * a2) = 0 := by
  rw [if_neg h5]
  nlinarith [mul_self_nonneg a1, mul_self_nonneg a2,
    mul_nonneg h3 (mul_self_nonneg a1), mul_nonneg h4 (mul_self_nonneg a2)]

theorem fixed_k22_pos (iA iB : ℚ) (h3 : 0 ≤ iA) (h4 : 0 ≤ iB) :
    0 < (if iA + iB = 0 then 1 else iA + iB) := by
  split
  · exact one_pos
  · exact lt_of_le_of_ne (add_nonneg h3 h4) (Ne.symm (by assumption))

/-- C7: degeneracy guards — the axial effective mass sum is inverted only
when strictly positive (with non-negative inverse masses and inertias it is
otherwise exactly zero, so the cached axial mass is zero), and the
rotational diagonal k22 = invIA + invIB of the bilateral block matrices is
replaced by 1 when both inverse inertias vanish, staying strictly positive,
in both InitVelocityConstraints and the position-solve computation. -/
theorem prismatic_degeneracy_guards (sinF cosF : ℚ → ℚ) (bA bB : Body)
    (j : PrismaticJoint) (step : TimeStep) (pA pB : Position) (vA vB : Velocity)
    (lSlop : ℚ) (j2 : PrismaticJoint) (pA2 pB2 : Position) :
    (0 < bA.m_invMass + bB.m_invMass +
        bA.m_invI * (InitVelocityConstraints sinF cosF bA bB j step pA pB vA vB).joint.m_a1 *
          (InitVelocityConstraints sinF cosF bA bB j step pA pB vA vB).joint.m_a1 +
        bB.m_invI * (InitVelocityConstraints sinF cosF bA bB j step pA pB vA vB).joint.m_a2 *
          (InitVelocityConstraints sinF cosF bA bB j step pA pB vA vB).joint.m_a2 →
      (InitVelocityConstraints sinF cosF bA bB j step pA pB vA vB).joint.m_axialMass =
        1 / (bA.m_invMass + bB.m_invMass +
          bA.m_invI * (InitVelocityConstraints sinF cosF bA bB j step pA pB vA vB).joint.m_a1 *
            (InitVelocityConstraints sinF cosF bA bB j step pA pB vA vB).joint.m_a1 +
          bB.m_invI * (InitVelocityConstraints sinF cosF bA bB j step pA pB vA vB).joint.m_a2 *
            (InitVelocityConstraints sinF cosF bA bB j step pA pB vA vB).joint.m_a2)) ∧
    (0 ≤ bA.m_invMass → 0 ≤ bB.m_invMass → 0 ≤ bA.m_invI → 0 ≤ bB.m_invI →
      ¬(0 < bA.m_invMass + bB.m_invMass +
        bA.m_invI * (InitVelocityConstraints sinF cosF bA bB j step pA pB vA vB).joint.m_a1 *
          (InitVelocityConstraints sinF cosF bA bB j step pA pB vA vB).joint.m_a1 +
        bB.m_invI * (InitVelocityConstraints sinF cosF bA bB j step pA pB vA vB).joint.m_a2 *
          (InitVelocityConstraints sinF cosF bA bB j step pA pB vA vB).joint.m_a2) →
      (InitVelocityConstraints sinF cosF bA bB j step pA pB vA vB).joint.m_axialMass = 0) ∧
    (bA.m_invI + bB.m_invI = 0 →
      (InitVelocityConstraints sinF cosF bA bB j step pA pB vA vB).joint.m_K.ey.y = 1) ∧
    (0 ≤ bA.m_invI → 0 ≤ bB.m_invI →
      0 < (InitVelocityConstraints sinF cosF bA bB j step pA pB vA vB).joint.m_K.ey.y) ∧
    (j2.m_invIA + j2.m_invIB = 0 → (posCalc sinF cosF lSlop j2 pA2 pB2).k22 = 1) ∧
    (0 ≤ j2.m_invIA → 0 ≤ j2.m_invIB → 0 < (posCalc sinF cosF lSlop j2 pA2 pB2).k22) := by
  refine ⟨fun h => ?_, fun h1 h2 h3 h4 h5 => ?_, fun h => ?_, fun h3 h4 => ?_,
    fun h => ?_, fun h3 h4 => ?_⟩
  · cases hw : step.warmStarting <;>
      (simp [InitVelocityConstraints, hw] at h ⊢; intro hle; exact absurd h (not_lt.mpr hle))
  · cases hw : step.warmStarting <;>
      (simp [InitVelocityConstraints, hw] at h5 ⊢;
       exact axial_sum_not_pos_eq_zero _ _ _ _ _ _ h1 h2 h3 h4 (not_lt.mpr h5))
  · cases hw : step.warmStarting <;> simp [InitVelocityConstraints, hw, h]
  · cases hw : step.warmStarting <;>
      (simp [InitVelocityConstraints, hw]; exact fixed_k22_pos _ _ h3 h4)
  · simp only [posCalc]
    split
    · rfl
    · exact absurd h (by assumption)
  · simp only [posCalc]
    exact fixed_k22_pos _ _ h3 h4

/-- C6: limit activation in SolvePositionConstraints — the computed limit
state of a call is exactly limitTriple applied to the fresh translation and
the perpendicular error; when the limit range is narrower than twice the
linear slop the limit is active as an equality constraint (C2 is the full
translation) regardless of where the translation lies; when the range is
wide the limit is active exactly at or beyond a bound, with the lower
violation clamped non-positive and the upper clamped non-negative; an
inactive limit yields a zero axial pseudo-impulse component, and an active
limit takes the coupled 3×3 solve. -/
theorem prismatic_position_limit_activation (sinF cosF : ℚ → ℚ) (lSlop : ℚ)
    (j : PrismaticJoint) (pA pB : Position) (translation linearError0 : ℚ) :
    ((posCalc sinF cosF lSlop j pA pB).active,
      (posCalc sinF cosF lSlop j pA pB).C2,
      (posCalc sinF cosF lSlop j pA pB).linearError) =
      limitTriple lSlop j (posCalc sinF cosF lSlop j pA pB).translation
        |(posCalc sinF cosF lSlop j pA pB).C1x| ∧
    (j.m_enableLimit = true →
      |j.m_upperTranslation - j.m_lowerTranslation| < 2 * lSlop →
      (limitTriple lSlop j translation linearError0).1 = true ∧
      (limitTriple lSlop j translation linearError0).2.1 = translation) ∧
    (j.m_enableLimit = true →
      ¬(|j.m_upperTranslation - j.m_lowerTranslation| < 2 * lSlop) →
      ((limitTriple lSlop j translation linearError0).1 = true ↔
        translation ≤ j.m_lowerTranslation ∨ j.m_upperTranslation ≤ translation) ∧
      (translation ≤ j.m_lowerTranslation →
        (limitTriple lSlop j translation linearError0).2.1 =
          min (translation - j.m_lowerTranslation) 0 ∧
        (limitTriple lSlop j translation linearError0).2.1 ≤ 0) ∧
      (¬(translation ≤ j.m_lowerTranslation) → j.m_upperTranslation ≤ translation →
        (limitTriple lSlop j translation linearError0).2.1 =
          max (translation - j.m_upperTranslation) 0)) ∧
    ((posCalc sinF cosF lSlop j pA pB).active = false →
      (posCalc sinF cosF lSlop j pA pB).impulse.z = 0) ∧
    ((posCalc sinF cosF lSlop j pA pB).active = true →
      (posCalc sinF cosF lSlop j pA pB).impulse =
        Mat33.Solve33
          ⟨⟨j.m_invMassA + j.m_invMassB +
              j.m_invIA * (posCalc sinF cosF lSlop j pA pB).s1 *
                (posCalc sinF cosF lSlop j pA pB).s1 +
              j.m_invIB * (posCalc sinF cosF lSlop j pA pB).s2 *
                (posCalc sinF cosF lSlop j pA pB).s2,
            j.m_invIA * (posCalc sinF cosF lSlop j pA pB).s1 +
              j.m_invIB * (posCalc sinF cosF lSlop j pA pB).s2,
            j.m_invIA * (posCalc sinF cosF lSlop j pA pB).s1 *
                (posCalc sinF cosF lSlop j pA pB).a1 +
              j.m_invIB * (posCalc sinF cosF lSlop j pA pB).s2 *
                (posCalc sinF cosF lSlop j pA pB).a2⟩,
           ⟨j.m_invIA * (posCalc sinF cosF lSlop j pA pB).s1 +
              j.m_invIB * (posCalc sinF cosF lSlop j pA pB).s2,
            (posCalc sinF cosF lSlop j pA pB).k22,
            j.m_invIA * (posCalc sinF cosF lSlop j pA pB).a1 +
              j.m_invIB * (posCalc sinF cosF lSlop j pA pB).a2⟩,
           ⟨j.m_invIA * (posCalc sinF cosF lSlop j pA pB).s1 *
                (posCalc sinF cosF lSlop j pA pB).a1 +
              j.m_invIB * (posCalc sinF cosF lSlop j pA pB).s2 *
                (posCalc sinF cosF lSlop j pA pB).a2,
            j.m_invIA * (posCalc sinF cosF lSlop j pA pB).a1 +
              j.m_invIB * (posCalc sinF cosF lSlop j pA pB).a2,
            j.m_invMassA + j.m_invMassB +
              j.m_invIA * (posCalc sinF cosF lSlop j pA pB).a1 *
                (posCalc sinF cosF lSlop j pA pB).a1 +
              j.m_invIB * (posCalc sinF cosF lSlop j pA pB).a2 *
                (posCalc sinF cosF lSlop j pA pB).a2⟩⟩
          ⟨-(posCalc sinF cosF lSlop j pA pB).C1x,
           -(posCalc sinF cosF lSlop j pA pB).C1y,
           -(posCalc sinF cosF lSlop j pA pB).C2⟩) := by
  refine ⟨rfl, fun h1 h2 => ?_, fun h1 h2 => ⟨?_, fun h3 => ?_, fun h3 h4 => ?_⟩,
    fun h => ?_, fun h => ?_⟩
  · refine ⟨?_, ?_⟩ <;> simp [limitTriple, h1, h2]
  · by_cases hc1 : translation ≤ j.m_lowerTranslation <;>
      by_cases hc2 : j.m_upperTranslation ≤ translation <;>
      simp [limitTriple, h1, h2, hc1, hc2]
  · refine ⟨?_, ?_⟩ <;> simp [limitTriple, h1, h2, h3]
  · simp [limitTriple, h1, h2, h3, h4]
  · simp only [posCalc] at h ⊢
    rw [h]
    simp
  · simp only [posCalc] at h ⊢
    rw [h]
    simp

/-- C8: the Boolean returned by SolvePositionConstraints is true exactly
when the linear error and the angular error computed by the call are
within the linear and angular slop tolerances; the angular error is the
magnitude of the angle deviation from the reference angle, and the linear
error is the perpendicular error magnitude, enlarged — when the limit is
active — by the limit violation magnitude of the taken branch. -/
theorem prismatic_position_convergence_report (sinF cosF : ℚ → ℚ) (lSlop aSlop : ℚ)
    (j : PrismaticJoint) (pA pB : Position) :
    ((SolvePositionConstraints sinF cosF lSlop aSlop j pA pB).ok = true ↔
      ((posCalc sinF cosF lSlop j pA pB).linearError ≤ lSlop ∧
       (posCalc sinF cosF lSlop j pA pB).angularError ≤ aSlop)) ∧
    (posCalc sinF cosF lSlop j pA pB).angularError =
      |pB.a - pA.a - j.m_referenceAngle| ∧
    ((posCalc sinF cosF lSlop j pA pB).active = false →
      (posCalc sinF cosF lSlop j pA pB).linearError =
        |(posCalc sinF cosF lSlop j pA pB).C1x|) ∧
    (j.m_enableLimit = true →
      |j.m_upperTranslation - j.m_lowerTranslation| < 2 * lSlop →
      (posCalc sinF cosF lSlop j pA pB).linearError =
        max |(posCalc sinF cosF lSlop j pA pB).C1x|
          |(posCalc sinF cosF lSlop j pA pB).translation|) ∧
    (j.m_enableLimit = true →
      ¬(|j.m_upperTranslation - j.m_lowerTranslation| < 2 * lSlop) →
      (posCalc sinF cosF lSlop j pA pB).translation ≤ j.m_lowerTranslation →
      (posCalc sinF cosF lSlop j pA pB).linearError =
        max |(posCalc sinF cosF lSlop j pA pB).C1x|
          (j.m_lowerTranslation - (posCalc sinF cosF lSlop j pA pB).translation)) ∧
    (j.m_enableLimit = true →
      ¬(|j.m_upperTranslation - j.m_lowerTranslation| < 2 * lSlop) →
      ¬((posCalc sinF cosF lSlop j pA pB).translation ≤ j.m_lowerTranslation) →
      j.m_upperTranslation ≤ (posCalc sinF cosF lSlop j pA pB).translation →
      (posCalc sinF cosF lSlop j pA pB).linearError =
        max |(posCalc sinF cosF lSlop j pA pB).C1x|
          ((posCalc sinF cosF lSlop j pA pB).translation - j.m_upperTranslation)) := by
  refine ⟨?_, rfl, fun h => ?_, fun h1 h2 => ?_, fun h1 h2 h3 => ?_,
    fun h1 h2 h3 h4 => ?_⟩
  · simp [SolvePositionConstraints]
  · simp only [posCalc] at h ⊢
    simp only [limitTriple] at h ⊢
    split_ifs at h ⊢ <;> simp_all
  · simp only [posCalc]
    simp [limitTriple, h1, h2]
  · simp only [posCalc] at h3 ⊢
    simp [limitTriple, h1, h2, h3]
  · simp only [posCalc] at h3 h4 ⊢
    simp [limitTriple, h1, h2, h3, h4]

/-- The limit violation magnitude at a given translation, following the
description of the linear positional error: the full deviation when the
range is narrow, the distance below the lower bound or above the upper
bound when active there, and zero when the limit is inactive or disabled. -/
def limitViolation (lSlop : ℚ) (j : PrismaticJoint) (translation : ℚ) : ℚ :=
  if j.m_enableLimit then
    if |j.m_upperTranslation - j.m_lowerTranslation| < 2 * lSlop then
      |translation|
    else if translation ≤ j.m_lowerTranslation then
      j.m_lowerTranslation - translation
    else if j.m_upperTranslation ≤ translation then
      translation - j.m_upperTranslation
    else
      0
  else
    0

theorem limitTriple_linearError (lSlop : ℚ) (j : PrismaticJoint) (t L0 : ℚ)
    (h : 0 ≤ L0) :
    (limitTriple lSlop j t L0).2.2 = max L0 (limitViolation lSlop j t) := by
  unfold limitTriple limitViolation
  split_ifs <;> simp [max_eq_left h]

/-- Zero sine table: the identity rotation at every angle. -/
def sin0 : ℚ → ℚ := fun _ => 0

/-- Unit cosine table: the identity rotation at every angle. -/
def cos0 : ℚ → ℚ := fun _ => 1

/-- Joint for the concrete position-solve evaluation: limit disabled. -/
def c10Joint : PrismaticJoint :=
  { testJoint with m_enableLimit := false }

/-- Entry pose of body A for the concrete position-solve evaluation. -/
def c10PA : Position := ⟨⟨0, 0⟩, 0⟩

/-- Entry pose of body B: a small perpendicular offset, within slop. -/
def c10PB : Position := ⟨⟨0, 1/1000⟩, 0⟩

/-- C10: the Boolean returned by SolvePositionConstraints is computed from
the positional errors measured at entry — the perpendicular error, limit
violation and angle deviation of the poses read before the correction —
and a call that applies a nonzero correction (concrete instance: body B
moved while the flag is true) still reports convergence from those
pre-correction errors. -/
theorem prismatic_position_flag_from_entry_errors (sinF cosF : ℚ → ℚ)
    (lSlop aSlop : ℚ) (j : PrismaticJoint) (pA pB : Position) :
    ((SolvePositionConstraints sinF cosF lSlop aSlop j pA pB).ok =
      decide (max |(posCalc sinF cosF lSlop j pA pB).C1x|
          (limitViolation lSlop j (posCalc sinF cosF lSlop j pA pB).translation) ≤ lSlop ∧
        |pB.a - pA.a - j.m_referenceAngle| ≤ aSlop)) ∧
    (SolvePositionConstraints sin0 cos0 (5/1000) (1/100) c10Joint c10PA c10PB).ok = true ∧
    (SolvePositionConstraints sin0 cos0 (5/1000) (1/100) c10Joint c10PA c10PB).pB ≠ c10PB := by
  refine ⟨?_, ?_, ?_⟩
  · have hlin : (posCalc sinF cosF lSlop j pA pB).linearError =
        max |(posCalc sinF cosF lSlop j pA pB).C1x|
          (limitViolation lSlop j (posCalc sinF cosF lSlop j pA pB).translation) :=
      limitTriple_linearError lSlop j (posCalc sinF cosF lSlop j pA pB).translation
        |(posCalc sinF cosF lSlop j pA pB).C1x| (abs_nonneg _)
    show decide ((posCalc sinF cosF lSlop j pA pB).linearError ≤ lSlop ∧
        (posCalc sinF cosF lSlop j pA pB).angularError ≤ aSlop) = _
    rw [hlin]
    rfl
  · norm_num [SolvePositionConstraints, posCalc, limitTriple, c10Joint, testJoint,
      c10PA, c10PB, sin0, cos0, b2RotOf, b2MulRot, b2Dot, b2Cross,
      Mat22.Solve, Mat33.Solve33, abs_le]
  · norm_num [SolvePositionConstraints, posCalc, limitTriple, c10Joint, testJoint,
      c10PA, c10PB, sin0, cos0, b2RotOf, b2MulRot, b2Dot, b2Cross,
      Mat22.Solve, Mat33.Solve33, Vec2.ext_iff]
